import Mathlib

/-!
Shallow embedding of `src/main.rs` of aaron404/reddit-tui: the stateful list
(`StatefulList`), the application state (`App`), the key-event handling and the
periodic-refresh section of `run_app`, together with theorems settling the
spec claims about them.

Modelling conventions:
* Rust `usize` arithmetic is `Nat` with debug-build overflow semantics:
  a subtraction that would underflow is a `Panic` (the source is a debug
  prototype, and the relevant claims are exactly about such underflow).
* A Rust panic (`unwrap` on `Err`, arithmetic underflow) is the `Except.error`
  branch of an `Except Panic _` result.
* `Instant`/`Duration` are `Nat` (an abstract tick count); `last_tick.elapsed()`
  is `now - lastTick`.
* The roux collaborator `sub.top(count, None)` is an explicit parameter
  `fetch : Nat -> Except FetchError (List Submission)`; the list of counts
  passed to it during a step is returned alongside, so that "FetchTop was
  invoked" is observable.
-/

namespace RedditTui

/-- A Rust panic, carrying its message. -/
structure Panic where
  msg : String
deriving Repr, DecidableEq

/-- The debug-build panic of a `usize` subtraction that underflows. -/
def underflowPanic : Panic := ⟨"attempt to subtract with overflow"⟩

/-- The panic of `Result::unwrap` applied to an `Err`. -/
def unwrapPanic : Panic := ⟨"called Result::unwrap on an Err value"⟩

/-- Debug-build `usize` subtraction: underflow panics. -/
def usizeSub (a b : Nat) : Except Panic Nat :=
  if b ≤ a then .ok (a - b) else .error underflowPanic

/-- The struct `tui::widgets::ListState`, reduced to the one field the program reads and
writes through `selected()` / `select(..)`. -/
structure ListState where
  selected : Option Nat
deriving Repr, DecidableEq

/-- Rust `ListState::default()`: nothing selected. -/
def ListState.default : ListState := ⟨none⟩

/-- Rust `ListState::select`. -/
def ListState.select (_s : ListState) (i : Option Nat) : ListState := ⟨i⟩

/-- The struct `StatefulList<T>` from src/main.rs lines 21-24. -/
structure StatefulList (T : Type) where
  state : ListState
  items : List T
deriving Repr, DecidableEq

/-- Rust `StatefulList::with_items` (lines 27-32). -/
def StatefulList.with_items (items : List T) : StatefulList T :=
  { state := ListState.default, items := items }

/-- Rust `StatefulList::next` (lines 34-46).  `self.items.len() - 1` is `usize`
subtraction, so an empty `items` underflows when a cursor is set; the panic
propagates out of the call. -/
def StatefulList.next (l : StatefulList T) : Except Panic (StatefulList T) :=
  match l.state.selected with
  | some i =>
      match usizeSub l.items.length 1 with
      | .ok m =>
          .ok { l with state := l.state.select (some (if i ≥ m then 0 else i + 1)) }
      | .error p => .error p
  | none => .ok { l with state := l.state.select (some 0) }

/-- Rust `StatefulList::previous` (lines 48-60). -/
def StatefulList.previous (l : StatefulList T) : Except Panic (StatefulList T) :=
  match l.state.selected with
  | some i =>
      if i == 0 then
        match usizeSub l.items.length 1 with
        | .ok m => .ok { l with state := l.state.select (some m) }
        | .error p => .error p
      else
        .ok { l with state := l.state.select (some (i - 1)) }
  | none => .ok { l with state := l.state.select (some 0) }

/-- Rust `StatefulList::unselect` (lines 62-64). -/
def StatefulList.unselect (l : StatefulList T) : StatefulList T :=
  { l with state := l.state.select none }

/-- A reddit submission as the program keeps it (lines 191-195).  The `f64`
score is carried opaquely as `Int`; no claim computes with it. -/
structure Submission where
  title : String
  score : Int
  id : String
deriving Repr, DecidableEq

/-- The struct `App` (lines 73-77): the demo `items`/`events` fields plus the live
`submissions` list. -/
structure App where
  items : StatefulList (String × Nat)
  events : List (String × String)
  submissions : StatefulList Submission
deriving Repr, DecidableEq

/-- Rust `App::new` (lines 80-86). -/
def App.new : App :=
  { items := StatefulList.with_items [("Item0", 1)]
  , events := [("Event1", "INFO")]
  , submissions := StatefulList.with_items [] }

/-- Rust `App::on_tick` (lines 90-106): every statement is commented out, so it is
the identity. -/
def App.on_tick (a : App) : App := a

/-- The error side of the roux fetch collaborator (`FetchTop`). -/
structure FetchError where
  msg : String
deriving Repr, DecidableEq

/-- The count passed to `sub.top` in the refresh branch (line 171). -/
def fetchWindow : Nat := 25

/-- The feed-length guard constant in `run_app` (line 166). -/
def populateThreshold : Nat := 10

/-- The crossterm key codes the loop can receive; `other n` stands for every
remaining variant. -/
inductive KeyCode where
  | char (c : Char)
  | left
  | down
  | up
  | enter
  | esc
  | backspace
  | other (n : Nat)
deriving Repr, DecidableEq

/-- Whether the loop keeps running or returns after a key event. -/
inductive LoopAction where
  | exit
  | cont
deriving Repr, DecidableEq

/-- The key-event match of `run_app` (lines 153-159): `Char('q')` returns from
the loop, Left/Down/Up drive the submissions list, everything else is the
wildcard arm `_ => \x7b\x7d`.  `next`/`previous` can panic (empty-list
underflow), hence the `Except`. -/
def handleKey (app : App) (code : KeyCode) : Except Panic (LoopAction × App) :=
  match code with
  | .char c =>
      if c == 'q' then .ok (.exit, app)
      else .ok (.cont, app)
  | .left => .ok (.cont, { app with submissions := app.submissions.unselect })
  | .down =>
      match app.submissions.next with
      | .ok s => .ok (.cont, { app with submissions := s })
      | .error p => .error p
  | .up =>
      match app.submissions.previous with
      | .ok s => .ok (.cont, { app with submissions := s })
      | .error p => .error p
  | _ => .ok (.cont, app)

/-- The submissions list built in the refresh branch (lines 170-183):
`StatefulList::with_items(result)` followed by `state.select(Some(0))`. -/
def refreshedList (subs : List Submission) : StatefulList Submission :=
  { StatefulList.with_items subs with
      state := (StatefulList.with_items subs).state.select (some 0) }

/-- The timeout computation of `run_app` (lines 147-149):
`tick_rate.checked_sub(last_tick.elapsed()).unwrap_or(0)`. -/
def computeTimeout (tickRate elapsed : Nat) : Nat :=
  ((if elapsed ≤ tickRate then some (tickRate - elapsed) else none)).getD 0

/-- The periodic-refresh section of `run_app` (lines 165-187).  Returns the
outcome (new `app` and `last_tick`, or a panic) paired with the list of
counts passed to the fetch collaborator during the step. -/
def tickRefresh (app : App) (lastTick now tickRate : Nat)
    (fetch : Nat → Except FetchError (List Submission)) :
    Except Panic (App × Nat) × List Nat :=
  if now - lastTick ≥ tickRate then
    if app.submissions.items.length < populateThreshold then
      match fetch fetchWindow with
      | .ok subs =>
          (.ok (({ app with submissions := refreshedList subs }).on_tick, now),
           [fetchWindow])
      | .error _ =>
          (.error unwrapPanic, [fetchWindow])
    else
      (.ok (app.on_tick, now), [])
  else
    (.ok (app, lastTick), [])

/-- The cursor invariant from the spec, as a decidable check: if a cursor is
set it is a valid index. -/
def cursorOk (l : StatefulList T) : Bool :=
  match l.state.selected with
  | some i => i < l.items.length
  | none => true

/-- Iterated `next`, threading the possible panic. -/
def iterNext (l : StatefulList T) : Nat → Except Panic (StatefulList T)
  | 0 => .ok l
  | k + 1 => (iterNext l k).bind StatefulList.next

/-- The spec data model for the List/Detail machine (the feature-complete
snapshot of the repository, which is not among the source files). -/
inductive Mode where
  | list
  | detail
deriving Repr, DecidableEq

/-- Detail of a selected item, per the spec data model. -/
structure Detail where
  id : String
  body : String
deriving Repr, DecidableEq

/-- The spec-level application state for the List/Detail machine. -/
structure AppStateSpec where
  mode : Mode
  feed : StatefulList Submission
  selectedDetail : Option Detail
deriving Repr, DecidableEq

/-- Modelled from the spec: the confirm transition of the List/Detail state
machine (spec section 4.2), which the snapshot under src/ does not contain.
"List | confirm, cursor = Some(i), feed non-empty | fetch Detail for
feed.items[i].id; on success store as selectedDetail | Detail"; confirm with
no cursor or an empty feed is a no-op, and a failed detail fetch stays in
List mode. -/
def confirmTransition (s : AppStateSpec)
    (fetchDetail : String → Except FetchError Detail) : AppStateSpec :=
  match s.mode with
  | .detail => s
  | .list =>
    match s.feed.state.selected with
    | none => s
    | some i =>
      if h : i < s.feed.items.length then
        match fetchDetail (s.feed.items.get ⟨i, h⟩).id with
        | .ok d => { s with mode := .detail, selectedDetail := some d }
        | .error _ => s
      else s

deriving instance DecidableEq for Except

/-! ### Helper lemmas -/

/-- Lemma: `usizeSub` succeeds exactly on the no-underflow side. -/
theorem usizeSub_ok (a b : Nat) (h : b ≤ a) : usizeSub a b = .ok (a - b) := if_pos h

/-- Lemma: `next` on a list whose cursor is a valid index advances it to
`(i + 1) % length`: the source's `if i >= len - 1 then 0 else i + 1`. -/
theorem next_mod (l : StatefulList T) (i : Nat) (hsel : l.state.selected = some i)
    (hi : i < l.items.length) :
    l.next = .ok { state := ⟨some ((i + 1) % l.items.length)⟩, items := l.items } := by
  have hpos : 1 ≤ l.items.length := Nat.lt_of_le_of_lt (Nat.zero_le i) hi
  unfold StatefulList.next
  rw [hsel, usizeSub_ok l.items.length 1 hpos]
  by_cases hge : i ≥ l.items.length - 1
  · have hmod : (i + 1) % l.items.length = 0 := by
      have hi1 : i + 1 = l.items.length := by omega
      rw [hi1, Nat.mod_self]
    rw [hmod]
    show Except.ok { l with state := (l.state.select (some (if i ≥ l.items.length - 1 then 0 else i + 1))) } = _
    rw [if_pos hge]
    rfl
  · have hmod : (i + 1) % l.items.length = i + 1 := Nat.mod_eq_of_lt (by omega)
    rw [hmod]
    show Except.ok { l with state := (l.state.select (some (if i ≥ l.items.length - 1 then 0 else i + 1))) } = _
    rw [if_neg hge]
    rfl

/-- Lemma: `next` from an unset cursor selects index 0 and touches nothing else. -/
theorem next_none (l : StatefulList T) (hsel : l.state.selected = none) :
    l.next = .ok { state := ⟨some 0⟩, items := l.items } := by
  unfold StatefulList.next
  rw [hsel]
  rfl

/-! ### Claim theorems -/

/-- C5: in every loop cycle, FetchTop is invoked exactly when the elapsed
time since the last tick has reached the refresh interval and the feed length
is strictly below the populate threshold 10; so with 12 items it is never
invoked, and with 3 items but elapsed time below the interval it is not
invoked. -/
theorem C5_fetch_guard : ∀ (app : App) (lastTick now tickRate : Nat)
    (fetch : Nat → Except FetchError (List Submission)),
    (tickRefresh app lastTick now tickRate fetch).2 =
      if tickRate ≤ now - lastTick ∧ app.submissions.items.length < 10
      then [25] else [] := by
  intro app lt now tr fetch
  unfold tickRefresh
  by_cases h1 : tr ≤ now - lt
  · by_cases h2 : app.submissions.items.length < 10
    · cases hf : fetch fetchWindow <;>
        simp [h1, h2, hf, populateThreshold, fetchWindow]
    · simp [h1, h2, populateThreshold]
  · simp [h1]

/-- C8: `previous()` from cursor `Some(0)` on a list of length `n > 0` wraps
the cursor to `Some(n-1)` and leaves the items unchanged. -/
theorem C8_previous_wraps : ∀ (T : Type) (l : StatefulList T) (n : Nat),
    l.items.length = n → 0 < n → l.state.selected = some 0 →
    l.previous = .ok { state := ⟨some (n - 1)⟩, items := l.items } := by
  intro T l n hn hpos hsel
  subst hn
  unfold StatefulList.previous
  rw [hsel, usizeSub_ok l.items.length 1 hpos]
  rfl

/-- Witness for C8 at a concrete three-element list with cursor `Some 0`. -/
theorem C8_previous_wraps_witness :
    (⟨⟨some 0⟩, [10, 20, 30]⟩ : StatefulList Nat).previous
      = .ok ⟨⟨some 2⟩, [10, 20, 30]⟩ :=
  C8_previous_wraps Nat ⟨⟨some 0⟩, [10, 20, 30]⟩ 3 rfl (by decide) rfl

/-- C9: the bounded input-wait duration equals the refresh interval minus the
elapsed time, floored at zero (as integers: `max 0 (tickRate - elapsed)`), and
is in particular always a finite, non-negative duration. -/
theorem C9_timeout_floor : ∀ tickRate elapsed : Nat,
    (computeTimeout tickRate elapsed : Int)
      = max 0 ((tickRate : Int) - (elapsed : Int)) := by
  intro t e
  unfold computeTimeout
  by_cases h : e ≤ t
  · rw [if_pos h]
    simp only [Option.getD_some]
    omega
  · rw [if_neg h]
    simp only [Option.getD_none]
    omega

/-- C10: a key event whose code is none of `q`, Left, Down, Up — Enter,
Escape and Backspace included — hits the wildcard arm and leaves the whole
application state unchanged (and the loop running). -/
theorem C10_other_keys_noop : ∀ (app : App) (code : KeyCode),
    code ≠ .char 'q' → code ≠ .left → code ≠ .down → code ≠ .up →
    handleKey app code = .ok (.cont, app) := by
  intro app code hq hl hd hu
  cases code with
  | char c =>
      have hc : ¬ (c == 'q') = true := by
        intro h
        exact hq (by rw [eq_of_beq h])
      simp [handleKey, hc]
  | left => exact absurd rfl hl
  | down => exact absurd rfl hd
  | up => exact absurd rfl hu
  | enter => rfl
  | esc => rfl
  | backspace => rfl
  | other n => rfl

/-- Witness for C10: Enter on the freshly created app changes nothing. -/
theorem C10_other_keys_noop_witness :
    handleKey App.new .enter = .ok (.cont, App.new) :=
  C10_other_keys_noop App.new .enter (by decide) (by decide) (by decide) (by decide)

/-! ### Concrete inputs used by counterexamples and witnesses -/

/-- A fetch collaborator that always fails (network error). -/
def failingFetch : Nat → Except FetchError (List Submission) :=
  fun _ => .error ⟨"network error"⟩

/-- The empty submissions list with no selection (the startup state of the
feed). -/
def emptyNoSel : StatefulList Submission := StatefulList.with_items []

/-- An empty submissions list that still carries a (stale) selection. -/
def emptySel0 : StatefulList Submission := ⟨⟨some 0⟩, []⟩

/-- Binding of `Except.ok` reduces to the continuation. -/
theorem ok_bind (x : α) (f : α → Except ε β) :
    (Except.ok x : Except ε α).bind f = f x := rfl

/-- Lemma: `previous` on a list with a set cursor and positive length: index 0 wraps
to `length - 1`, any other index moves down by one. -/
theorem previous_some (l : StatefulList T) (i : Nat)
    (hsel : l.state.selected = some i) (hpos : 0 < l.items.length) :
    l.previous = .ok { state := ⟨some (if i = 0 then l.items.length - 1 else i - 1)⟩,
                       items := l.items } := by
  unfold StatefulList.previous
  rw [hsel]
  cases i with
  | zero =>
      rw [usizeSub_ok l.items.length 1 hpos, if_pos rfl]
      rfl
  | succ j =>
      rw [if_neg (Nat.succ_ne_zero j)]
      rfl

/-- Lemma: `previous` from an unset cursor selects index 0. -/
theorem previous_none (l : StatefulList T) (hsel : l.state.selected = none) :
    l.previous = .ok { state := ⟨some 0⟩, items := l.items } := by
  unfold StatefulList.previous
  rw [hsel]
  rfl

/-- Iterating `next` from cursor `Some 0` on a non-empty list follows the
orbit `k mod length`. -/
theorem iterNext_from_zero (l : StatefulList T) (hpos : 0 < l.items.length)
    (hsel : l.state.selected = some 0) :
    ∀ k, iterNext l k = .ok ⟨⟨some (k % l.items.length)⟩, l.items⟩ := by
  intro k
  induction k with
  | zero =>
      obtain ⟨⟨sel⟩, its⟩ := l
      simp only [iterNext, Nat.zero_mod]
      simp only [ListState.selected] at hsel
      subst hsel
      rfl
  | succ k ih =>
      have hk : k % l.items.length < l.items.length := Nat.mod_lt _ hpos
      unfold iterNext
      rw [ih, ok_bind]
      rw [next_mod ⟨⟨some (k % l.items.length)⟩, l.items⟩ (k % l.items.length) rfl hk]
      have hmod : (k % l.items.length + 1) % l.items.length
          = (k + 1) % l.items.length := by
        rw [Nat.add_mod, Nat.mod_mod_of_dvd k dvd_rfl, ← Nat.add_mod]
      rw [hmod]

/-- C1 counterexample: at the fresh app (empty feed) with the refresh due and
a failing fetch, the refresh step does not leave the state unchanged — it
panics (`unwrap` on the fetch `Err`), so the loop aborts rather than
retrying. -/
theorem C1_counterexample :
    (tickRefresh App.new 0 1 1 failingFetch).1 = .error unwrapPanic
    ∧ (tickRefresh App.new 0 1 1 failingFetch).1 ≠ .ok (App.new, 1)
    ∧ (tickRefresh App.new 0 1 1 failingFetch).1 ≠ .ok (App.new, 0) := by
  refine ⟨rfl, ?_, ?_⟩ <;> decide

/-- C1 (amended): when the refresh transition fires and FetchTop fails, the
failure is not swallowed: the step panics with `unwrap` on the `Err` value
(aborting the loop, so there is no retry), after having invoked FetchTop once
with the fetch window; no new state is produced, partial or otherwise. -/
theorem C1_failed_fetch_panics : ∀ (app : App) (lastTick now tickRate : Nat)
    (fetch : Nat → Except FetchError (List Submission)) (e : FetchError),
    tickRate ≤ now - lastTick →
    app.submissions.items.length < populateThreshold →
    fetch fetchWindow = .error e →
    tickRefresh app lastTick now tickRate fetch = (.error unwrapPanic, [25]) := by
  intro app lt now tr fetch e h1 h2 hf
  unfold tickRefresh
  rw [if_pos h1, if_pos h2, hf]
  rfl

/-- Witness for the amended C1 at the fresh app and an always-failing
fetch. -/
theorem C1_failed_fetch_panics_witness :
    tickRefresh App.new 0 1 1 failingFetch = (.error unwrapPanic, [25]) :=
  C1_failed_fetch_panics App.new 0 1 1 failingFetch ⟨"network error"⟩
    (by decide) (by decide) rfl

/-- C2 counterexample: on the empty list, `next()` from cursor `None` does
not leave the cursor `None` (it selects index 0), and from a cursor `Some 0`
both `next()` and `previous()` panic with an arithmetic underflow
(`items.len() - 1` on length 0). -/
theorem C2_counterexample :
    emptyNoSel.next = .ok ⟨⟨some 0⟩, []⟩
    ∧ emptyNoSel.next ≠ .ok emptyNoSel
    ∧ emptySel0.next = .error underflowPanic
    ∧ emptySel0.previous = .error underflowPanic := by
  refine ⟨rfl, ?_, rfl, rfl⟩
  decide

/-- C2 (amended): on an empty list, `next()` and `previous()` from cursor
`None` do not panic but set the cursor to `Some 0` instead of leaving it
`None`; from cursor `Some i`, `next()` panics with an arithmetic underflow
for every `i`, `previous()` panics for `i = 0` and silently moves to
`Some (i-1)` for `i > 0`. -/
theorem C2_empty_list_behavior : ∀ (T : Type) (l : StatefulList T),
    l.items = [] →
    (l.state.selected = none →
      l.next = .ok ⟨⟨some 0⟩, []⟩ ∧ l.previous = .ok ⟨⟨some 0⟩, []⟩)
    ∧ (∀ i, l.state.selected = some i →
        l.next = .error underflowPanic
        ∧ (i = 0 → l.previous = .error underflowPanic)
        ∧ (0 < i → l.previous = .ok ⟨⟨some (i - 1)⟩, []⟩)) := by
  intro T l hitems
  obtain ⟨⟨sel⟩, its⟩ := l
  dsimp only at hitems
  subst hitems
  constructor
  · intro hsel
    dsimp only at hsel
    subst hsel
    exact ⟨rfl, rfl⟩
  · intro i hsel
    dsimp only at hsel
    subst hsel
    refine ⟨rfl, ?_, ?_⟩
    · intro h0
      subst h0
      rfl
    · intro hpos
      cases i with
      | zero => exact absurd hpos (Nat.lt_irrefl 0)
      | succ j => rfl

/-- Witness for the amended C2 on the concrete empty list without and with a
stale cursor. -/
theorem C2_empty_list_behavior_witness :
    (emptyNoSel.next = .ok ⟨⟨some 0⟩, []⟩
      ∧ emptyNoSel.previous = .ok ⟨⟨some 0⟩, []⟩)
    ∧ emptySel0.next = .error underflowPanic :=
  ⟨(C2_empty_list_behavior Submission emptyNoSel rfl).1 rfl,
   ((C2_empty_list_behavior Submission emptySel0 rfl).2 0 rfl).1⟩

/-- C3 counterexample: `next()` on the empty list with no selection starts
from a state satisfying the cursor invariant and ends, without a panic, in a
state that violates it (`Some 0` with zero items). -/
theorem C3_counterexample :
    cursorOk emptyNoSel = true
    ∧ emptyNoSel.next = .ok ⟨⟨some 0⟩, []⟩
    ∧ cursorOk (⟨⟨some 0⟩, []⟩ : StatefulList Submission) = false := by
  refine ⟨rfl, rfl, rfl⟩

/-- C3 (amended): the cursor invariant is preserved by `next()` and
`previous()` on every non-empty list that satisfies it (the items are left
unchanged), and by `unselect()` unconditionally; the list built by the
refresh replacement has cursor `Some 0`, which satisfies the invariant
exactly when the fetched sequence is non-empty.  On the empty list the
invariant is not preserved (see the counterexample). -/
theorem C3_cursor_invariant :
    (∀ (T : Type) (l : StatefulList T), l.items ≠ [] → cursorOk l = true →
      ∃ l', l.next = .ok l' ∧ cursorOk l' = true ∧ l'.items = l.items)
    ∧ (∀ (T : Type) (l : StatefulList T), l.items ≠ [] → cursorOk l = true →
      ∃ l', l.previous = .ok l' ∧ cursorOk l' = true ∧ l'.items = l.items)
    ∧ (∀ (T : Type) (l : StatefulList T), cursorOk l.unselect = true)
    ∧ (∀ subs : List Submission,
        cursorOk (refreshedList subs) = true ↔ subs ≠ []) := by
  refine ⟨?_, ?_, ?_, ?_⟩
  · intro T l hne hok
    have hpos : 0 < l.items.length := List.length_pos.mpr hne
    match hsel : l.state.selected with
    | none =>
        exact ⟨_, next_none l hsel, by simp [cursorOk, hpos], rfl⟩
    | some i =>
        have hi : i < l.items.length := by
          have hthis := hok
          unfold cursorOk at hthis
          rw [hsel] at hthis
          simpa using hthis
        exact ⟨_, next_mod l i hsel hi,
          by simp [cursorOk, Nat.mod_lt _ hpos], rfl⟩
  · intro T l hne hok
    have hpos : 0 < l.items.length := List.length_pos.mpr hne
    match hsel : l.state.selected with
    | none =>
        exact ⟨_, previous_none l hsel, by simp [cursorOk, hpos], rfl⟩
    | some i =>
        have hi : i < l.items.length := by
          have := hok
          unfold cursorOk at this
          rw [hsel] at this
          simpa using this
        refine ⟨_, previous_some l i hsel hpos, ?_, rfl⟩
        by_cases h0 : i = 0 <;> simp [cursorOk, h0] <;> omega
  · intro T l
    rfl
  · intro subs
    unfold cursorOk refreshedList StatefulList.with_items ListState.select
    simp only [ListState.selected]
    constructor
    · intro h hnil
      subst hnil
      simp at h
    · intro h
      have : 0 < subs.length := List.length_pos.mpr h
      simpa using this

/-- Witness for the amended C3 on a concrete two-element list with a valid
cursor and on a concrete one-element fetched sequence. -/
theorem C3_cursor_invariant_witness :
    (∃ l', (⟨⟨some 1⟩, [4, 5]⟩ : StatefulList Nat).next = .ok l'
      ∧ cursorOk l' = true ∧ l'.items = [4, 5])
    ∧ (cursorOk (refreshedList [⟨"t", 1, "x"⟩]) = true ↔ ([⟨"t", 1, "x"⟩] : List Submission) ≠ []) :=
  ⟨C3_cursor_invariant.1 Nat ⟨⟨some 1⟩, [4, 5]⟩ (by decide) rfl,
   C3_cursor_invariant.2.2.2 [⟨"t", 1, "x"⟩]⟩

/-- C6: when the refresh transition fires (elapsed ≥ interval, feed below the
threshold) and the fetch succeeds, the step requests the top 25 items,
wholesale-replaces the submissions list with the result, selects index 0,
sets the last-tick timestamp to `now`, and leaves every other field of the
app unchanged. -/
theorem C6_refresh_success : ∀ (app : App) (lastTick now tickRate : Nat)
    (fetch : Nat → Except FetchError (List Submission)) (subs : List Submission),
    tickRate ≤ now - lastTick →
    app.submissions.items.length < populateThreshold →
    fetch fetchWindow = .ok subs →
    tickRefresh app lastTick now tickRate fetch =
      (.ok ({ app with submissions := ⟨⟨some 0⟩, subs⟩ }, now), [25]) := by
  intro app lt now tr fetch subs h1 h2 hf
  unfold tickRefresh
  rw [if_pos h1, if_pos h2, hf]
  rfl

/-- Witness for C6: the fresh app, a due refresh, and a fetch that returns a
single submission. -/
theorem C6_refresh_success_witness :
    tickRefresh App.new 0 1 1 (fun _ => .ok [⟨"t", 1, "x"⟩]) =
      (.ok ({ App.new with submissions := ⟨⟨some 0⟩, [⟨"t", 1, "x"⟩]⟩ }, 1), [25]) :=
  C6_refresh_success App.new 0 1 1 (fun _ => .ok [⟨"t", 1, "x"⟩]) [⟨"t", 1, "x"⟩]
    (by decide) (by decide) rfl

/-- C7: on a non-empty list of length `n`, `next()` from cursor `None`
selects index 0; from cursor `Some 0` the k-th of `n` successive `next()`
calls sits at index `k mod n`, so the calls land back on `Some 0` after
exactly `n` calls, never panic, and every index below `n` is visited by
exactly one of the `n` calls (distinct indices, full coverage). -/
theorem C7_next_cycles : ∀ (T : Type) (l : StatefulList T) (n : Nat),
    l.items.length = n → 0 < n →
    (l.state.selected = none → l.next = .ok ⟨⟨some 0⟩, l.items⟩)
    ∧ (l.state.selected = some 0 →
        (∀ k, iterNext l k = .ok ⟨⟨some (k % n)⟩, l.items⟩)
        ∧ iterNext l n = .ok ⟨⟨some 0⟩, l.items⟩
        ∧ (∀ k₁ k₂, 1 ≤ k₁ → k₁ < k₂ → k₂ ≤ n → k₁ % n ≠ k₂ % n)
        ∧ (∀ j, j < n → ∃ k, 1 ≤ k ∧ k ≤ n ∧ k % n = j)) := by
  intro T l n hn hpos
  subst hn
  constructor
  · intro hsel
    exact next_none l hsel
  · intro hsel
    refine ⟨iterNext_from_zero l hpos hsel, ?_, ?_, ?_⟩
    · rw [iterNext_from_zero l hpos hsel, Nat.mod_self]
    · intro k₁ k₂ h1 h12 h2n
      by_cases hk2 : k₂ = l.items.length
      · subst hk2
        rw [Nat.mod_self, Nat.mod_eq_of_lt h12]
        omega
      · have hk2' : k₂ < l.items.length := by omega
        rw [Nat.mod_eq_of_lt (by omega), Nat.mod_eq_of_lt hk2']
        omega
    · intro j hj
      by_cases hj0 : j = 0
      · subst hj0
        exact ⟨l.items.length, hpos, Nat.le_refl _, Nat.mod_self _⟩
      · exact ⟨j, by omega, by omega, Nat.mod_eq_of_lt hj⟩

/-- Witness for C7 on a concrete three-element list: three `next()` calls
from `Some 0` land back on `Some 0`. -/
theorem C7_next_cycles_witness :
    iterNext (⟨⟨some 0⟩, [5, 6, 7]⟩ : StatefulList Nat) 3 = .ok ⟨⟨some 0⟩, [5, 6, 7]⟩ :=
  ((C7_next_cycles Nat ⟨⟨some 0⟩, [5, 6, 7]⟩ 3 rfl (by decide)).2 rfl).2.1

/-- The five-item feed of the spec's confirm example: item 2 has id "abc". -/
def feedFive : StatefulList Submission :=
  ⟨⟨some 2⟩,
   [⟨"t0", 0, "i0"⟩, ⟨"t1", 0, "i1"⟩, ⟨"t2", 0, "abc"⟩, ⟨"t3", 0, "i3"⟩, ⟨"t4", 0, "i4"⟩]⟩

/-- A detail-fetch collaborator that succeeds on id "abc" with body "hello". -/
def detailFetchHello : String → Except FetchError Detail :=
  fun s => if s = "abc" then .ok ⟨"abc", "hello"⟩ else .error ⟨"not found"⟩

/-- C4: in List mode with cursor `Some i` on a feed where `i` is in bounds,
a confirm event fetches the detail of item `i`, and on success the state
moves to Detail mode with the fetched detail stored as `selectedDetail`
(feed untouched). -/
theorem C4_confirm_detail : ∀ (s : AppStateSpec) (i : Nat)
    (fetchDetail : String → Except FetchError Detail) (d : Detail)
    (h : i < s.feed.items.length),
    s.mode = .list →
    s.feed.state.selected = some i →
    fetchDetail (s.feed.items.get ⟨i, h⟩).id = .ok d →
    confirmTransition s fetchDetail
      = { s with mode := .detail, selectedDetail := some d } := by
  intro s i fetchDetail d h hm hsel hf
  unfold confirmTransition
  rw [hm, hsel]
  show (if h : i < s.feed.items.length then
      match fetchDetail (s.feed.items.get ⟨i, h⟩).id with
      | Except.ok d => { s with mode := Mode.detail, selectedDetail := some d }
      | Except.error _ => s
    else s) = _
  rw [dif_pos h, hf]

/-- Witness for C4: the spec's own example — cursor `Some 2` on a five-item
feed, item 2 has id "abc", the detail fetch succeeds with body "hello", and
the state lands in Detail mode holding that body. -/
theorem C4_confirm_detail_witness :
    confirmTransition ⟨.list, feedFive, none⟩ detailFetchHello
        = ⟨.detail, feedFive, some ⟨"abc", "hello"⟩⟩
    ∧ (some (⟨"abc", "hello"⟩ : Detail)).map Detail.body = some "hello" :=
  ⟨C4_confirm_detail ⟨.list, feedFive, none⟩ 2 detailFetchHello ⟨"abc", "hello"⟩
      (by decide) rfl rfl (by decide), rfl⟩

end RedditTui
